import Mathlib

/-!
Shallow embedding of the client-side permission store
(`web/core/store/user/permissions.store.ts`) of the Plane web client.

Modelling conventions:
* `Record<string, T>` observable maps become total functions `String → Option T`;
  an absent key is `none`.
* JavaScript truthiness is modelled explicitly: the empty string is falsy, the
  numeric role value `0` is falsy, `undefined`/absent is falsy.  The expression
  `x || undefined` on a numeric role therefore collapses a present `0` to `none`.
* The role type `EUserPermissions` is a numeric enum (values cast through
  `unknown` in the source), so role slots are modelled as arbitrary `Nat`s.
* Each `async` store action awaits exactly one remote service call; the action is
  embedded as a pure function taking the outcome of that call
  (`Except RemoteErr α`, where `Except.error` is a promise rejection and a
  resolved falsy value is `Except.ok none`) and returning the pair of the
  action's own result (the value returned / error re-thrown) and the updated
  store state.  `runInAction` blocks become a single functional state update.
-/

namespace Plane

/-- Numeric role values of the `EUserPermissions` enum
(`@/plane-web/constants/user-permissions`, cast through `unknown` in the store). -/
abbrev EUserPermissions := Nat

/-- Modelled from the spec: the ordered role enum GUEST < MEMBER < ADMIN with
numeric ranks (the constants module `@/plane-web/constants/user-permissions` is
not part of the sources); only the order matters to the store. -/
def EUserPermissions.GUEST : EUserPermissions := 5

/-- Modelled from the spec: MEMBER rank of the ordered role enum. -/
def EUserPermissions.MEMBER : EUserPermissions := 15

/-- Modelled from the spec: ADMIN rank of the ordered role enum. -/
def EUserPermissions.ADMIN : EUserPermissions := 20

/-- The two permission levels of `EUserPermissionsLevel`. -/
inductive EUserPermissionsLevel where
  | WORKSPACE
  | PROJECT
deriving DecidableEq

/-- Workspace membership record (`IWorkspaceMemberMe` from `@plane/types`):
a role together with further user fields, abstracted to an identifier. -/
structure IWorkspaceMemberMe where
  id : String
  role : EUserPermissions
deriving DecidableEq

/-- Project membership record (`IProjectMember` from `@plane/types`). -/
structure IProjectMember where
  id : String
  role : EUserPermissions
deriving DecidableEq

/-- `IUserProjectsRole`: projectId → role mapping for one workspace. -/
abbrev IUserProjectsRole := String → Option EUserPermissions

/-- Remote error carried by a rejected promise. -/
abbrev RemoteErr := String

/-- Observable state of `UserPermissionStore`: the three cache maps. -/
structure UserPermissionStore where
  workspaceUserInfo : String → Option IWorkspaceMemberMe
  projectUserInfo : String → Option (String → Option IProjectMember)
  projectPermissions : String → Option IUserProjectsRole

/-- Read-only navigation context (`this.store.router`) supplying the current
workspaceSlug / projectId defaults. -/
structure RouterStore where
  workspaceSlug : Option String
  projectId : Option String

/-- JS `x || undefined` applied to a numeric role: a present role `0` is falsy
and collapses to `undefined`. -/
def jsRoleOrUndefined : Option EUserPermissions → Option EUserPermissions
  | none => none
  | some r => if r = 0 then none else some r

/-- `workspaceInfoBySlug` computed helper:
`if (!workspaceSlug) return undefined; return this.workspaceUserInfo[workspaceSlug] || undefined`
(`|| undefined` is the identity on an object-valued slot). -/
def workspaceInfoBySlug (store : UserPermissionStore) (workspaceSlug : String) :
    Option IWorkspaceMemberMe :=
  if workspaceSlug = "" then none
  else store.workspaceUserInfo workspaceSlug

/-- `projectPermissionsByWorkspaceSlugAndProjectId` computed helper:
`if (!workspaceSlug || !projectId) return undefined;
 return this.projectPermissions?.[workspaceSlug]?.[projectId] || undefined`. -/
def projectPermissionsByWorkspaceSlugAndProjectId (store : UserPermissionStore)
    (workspaceSlug projectId : String) : Option EUserPermissions :=
  if workspaceSlug = "" ∨ projectId = "" then none
  else jsRoleOrUndefined ((store.projectPermissions workspaceSlug).bind fun slice =>
    slice projectId)

/-- Raw read of the nested `projectUserInfo` map (ProjectMembership entry). -/
def lookupProjectMembership (store : UserPermissionStore)
    (workspaceSlug projectId : String) : Option IProjectMember :=
  (store.projectUserInfo workspaceSlug).bind fun slice => slice projectId

/-- Raw read of the nested `projectPermissions` map (ProjectRoleIndex entry),
before the `|| undefined` coercion of the computed helper. -/
def lookupProjectRoleRaw (store : UserPermissionStore)
    (workspaceSlug projectId : String) : Option EUserPermissions :=
  (store.projectPermissions workspaceSlug).bind fun slice => slice projectId

/-- `allowPermissions` computed helper: resolves falsy slug/id arguments from the
router, looks up the role at the requested level, and grants iff the (truthy)
role is contained in `allowedRoles`, delegating to `onPermissionAllowed` when
supplied. -/
def allowPermissions (store : UserPermissionStore) (router : RouterStore)
    (allowedRoles : List EUserPermissions) (level : EUserPermissionsLevel)
    (onPermissionAllowed : Option (Unit → Bool))
    (workspaceSlug? projectId? : Option String) : Bool :=
  let workspaceSlug : Option String :=
    match workspaceSlug? with
    | some s => if s = "" then router.workspaceSlug else some s
    | none => router.workspaceSlug
  let projectId : Option String :=
    match projectId? with
    | some s => if s = "" then router.projectId else some s
    | none => router.projectId
  let currentUserRole : Option EUserPermissions :=
    match level with
    | EUserPermissionsLevel.WORKSPACE =>
      match workspaceSlug with
      | some ws =>
        if ws = "" then none
        else
          match workspaceInfoBySlug store ws with
          | some info => some info.role
          | none => none
      | none => none
    | EUserPermissionsLevel.PROJECT =>
      match workspaceSlug, projectId with
      | some ws, some pid =>
        if ws = "" ∨ pid = "" then none
        else projectPermissionsByWorkspaceSlugAndProjectId store ws pid
      | _, _ => none
  match currentUserRole with
  | some role =>
    if role ≠ 0 ∧ allowedRoles.contains role then
      match onPermissionAllowed with
      | some callback => callback ()
      | none => true
    else false
  | none => false

/-- `fetchUserWorkspaceInfo`: awaits `workspaceService.workspaceMemberMe`; on a
truthy response stores it under `workspaceUserInfo[workspaceSlug]`; returns the
response; re-throws a rejection after logging. -/
def fetchUserWorkspaceInfo (store : UserPermissionStore) (workspaceSlug : String)
    (remote : Except RemoteErr (Option IWorkspaceMemberMe)) :
    Except RemoteErr (Option IWorkspaceMemberMe) × UserPermissionStore :=
  match remote with
  | Except.error e => (Except.error e, store)
  | Except.ok response =>
    match response with
    | some info =>
      (Except.ok (some info),
        { store with
          workspaceUserInfo := fun ws =>
            if ws = workspaceSlug then some info else store.workspaceUserInfo ws })
    | none => (Except.ok none, store)

/-- `leaveWorkspace`: awaits `userService.leaveWorkspace`; on success unsets the
workspaceSlug key in all three maps in one `runInAction` block; re-throws a
rejection after logging. -/
def leaveWorkspace (store : UserPermissionStore) (workspaceSlug : String)
    (remote : Except RemoteErr Unit) : Except RemoteErr Unit × UserPermissionStore :=
  match remote with
  | Except.error e => (Except.error e, store)
  | Except.ok _ =>
    (Except.ok (),
      { workspaceUserInfo := fun ws =>
          if ws = workspaceSlug then none else store.workspaceUserInfo ws
        projectUserInfo := fun ws =>
          if ws = workspaceSlug then none else store.projectUserInfo ws
        projectPermissions := fun ws =>
          if ws = workspaceSlug then none else store.projectPermissions ws })

/-- `fetchUserProjectInfo`: awaits `projectMemberService.projectMemberMe`; on a
truthy response sets `projectUserInfo[ws][pid]` to the record and
`projectPermissions[ws][pid]` to its role in one `runInAction` block (lodash
`set` creates missing intermediate slices); returns the response; re-throws a
rejection after logging. -/
def fetchUserProjectInfo (store : UserPermissionStore)
    (workspaceSlug projectId : String)
    (remote : Except RemoteErr (Option IProjectMember)) :
    Except RemoteErr (Option IProjectMember) × UserPermissionStore :=
  match remote with
  | Except.error e => (Except.error e, store)
  | Except.ok none => (Except.ok none, store)
  | Except.ok (some member) =>
    let innerInfo : String → Option IProjectMember :=
      (store.projectUserInfo workspaceSlug).getD fun _ => none
    let innerPerms : IUserProjectsRole :=
      (store.projectPermissions workspaceSlug).getD fun _ => none
    (Except.ok (some member),
      { store with
        projectUserInfo := fun ws =>
          if ws = workspaceSlug then
            some fun pid => if pid = projectId then some member else innerInfo pid
          else store.projectUserInfo ws
        projectPermissions := fun ws =>
          if ws = workspaceSlug then
            some fun pid => if pid = projectId then some member.role else innerPerms pid
          else store.projectPermissions ws })

/-- `fetchUserProjectPermissions`: awaits
`workspaceService.getWorkspaceUserProjectsRole`; writes the response under
`projectPermissions[workspaceSlug]` unconditionally (no truthiness guard, so a
falsy response replaces the slice with an empty-for-lookup value); returns the
response; re-throws a rejection after logging. -/
def fetchUserProjectPermissions (store : UserPermissionStore)
    (workspaceSlug : String)
    (remote : Except RemoteErr (Option IUserProjectsRole)) :
    Except RemoteErr (Option IUserProjectsRole) × UserPermissionStore :=
  match remote with
  | Except.error e => (Except.error e, store)
  | Except.ok response =>
    (Except.ok response,
      { store with
        projectPermissions := fun ws =>
          if ws = workspaceSlug then response else store.projectPermissions ws })

/-- `joinProject`: awaits `userService.joinProject`; on a truthy response (a
role value; `0` is falsy) writes it into `projectPermissions[ws][pid]`; returns
the response; re-throws a rejection after logging. -/
def joinProject (store : UserPermissionStore) (workspaceSlug projectId : String)
    (remote : Except RemoteErr (Option EUserPermissions)) :
    Except RemoteErr (Option EUserPermissions) × UserPermissionStore :=
  match remote with
  | Except.error e => (Except.error e, store)
  | Except.ok none => (Except.ok none, store)
  | Except.ok (some role) =>
    if role = 0 then (Except.ok (some role), store)
    else
      let innerPerms : IUserProjectsRole :=
        (store.projectPermissions workspaceSlug).getD fun _ => none
      (Except.ok (some role),
        { store with
          projectPermissions := fun ws =>
            if ws = workspaceSlug then
              some fun pid => if pid = projectId then some role else innerPerms pid
            else store.projectPermissions ws })

/-- `leaveProject`: awaits `userService.leaveProject`; on success unsets the
single nested key `projectPermissions[ws][pid]` (lodash `unset` of a nested path
is a no-op when the parent slice is absent, and never deletes the parent);
re-throws a rejection after logging. -/
def leaveProject (store : UserPermissionStore) (workspaceSlug projectId : String)
    (remote : Except RemoteErr Unit) : Except RemoteErr Unit × UserPermissionStore :=
  match remote with
  | Except.error e => (Except.error e, store)
  | Except.ok _ =>
    match store.projectPermissions workspaceSlug with
    | none => (Except.ok (), store)
    | some slice =>
      (Except.ok (),
        { store with
          projectPermissions := fun ws =>
            if ws = workspaceSlug then
              some fun pid => if pid = projectId then none else slice pid
            else store.projectPermissions ws })

/-! ### Concrete sample data used by the witness theorems -/

/-- A sample workspace membership record with MEMBER role. -/
def sampleMember : IWorkspaceMemberMe := { id := "u1", role := 15 }

/-- A sample per-workspace role slice: p3 ↦ MEMBER, p0 ↦ the falsy role 0. -/
def sampleSlice : IUserProjectsRole := fun pid =>
  if pid = "p3" then some 15 else if pid = "p0" then some 0 else none

/-- A sample store with one fetched workspace and one role slice. -/
def sampleStore : UserPermissionStore :=
  { workspaceUserInfo := fun ws => if ws = "ws1" then some sampleMember else none
    projectUserInfo := fun _ => none
    projectPermissions := fun ws => if ws = "ws1" then some sampleSlice else none }

/-- The store at session start: all three maps empty. -/
def emptyStore : UserPermissionStore :=
  { workspaceUserInfo := fun _ => none
    projectUserInfo := fun _ => none
    projectPermissions := fun _ => none }

/-- A router with no current navigation context. -/
def emptyRouter : RouterStore := { workspaceSlug := none, projectId := none }

/-- A sample bulk projects-role response: p1 ↦ MEMBER, p2 ↦ ADMIN. -/
def sampleBulkRoles : IUserProjectsRole := fun pid =>
  if pid = "p1" then some 15 else if pid = "p2" then some 20 else none

/-- A sample workspace membership record with ADMIN role. -/
def adminMember : IWorkspaceMemberMe := { id := "u2", role := 20 }

/-! ### Helper lemmas -/

/-- The `|| undefined` coercion never yields the falsy role `0`. -/
theorem jsRoleOrUndefined_ne_zero {x : Option EUserPermissions} {r : EUserPermissions}
    (h : jsRoleOrUndefined x = some r) : r ≠ 0 := by
  cases x with
  | none => simp [jsRoleOrUndefined] at h
  | some v =>
    by_cases hv : v = 0
    · simp [jsRoleOrUndefined, hv] at h
    · simp [jsRoleOrUndefined, hv] at h
      exact h ▸ hv

/-- A role produced by the project-permission computed helper is never `0`. -/
theorem projectLookup_ne_zero {store : UserPermissionStore} {ws pid : String}
    {r : EUserPermissions}
    (h : projectPermissionsByWorkspaceSlugAndProjectId store ws pid = some r) :
    r ≠ 0 := by
  unfold projectPermissionsByWorkspaceSlugAndProjectId at h
  split at h
  · exact absurd h (by simp)
  · exact jsRoleOrUndefined_ne_zero h

/-- Unfolding `allowPermissions` at WORKSPACE level with an explicit non-empty
workspaceSlug: the router is ignored and the decision depends only on the
`workspaceInfoBySlug` lookup. -/
theorem allowPermissions_workspace_eq (store : UserPermissionStore)
    (router : RouterStore) (allowedRoles : List EUserPermissions)
    (cb : Option (Unit → Bool)) (ws : String) (pid? : Option String)
    (hws : ws ≠ "") :
    allowPermissions store router allowedRoles EUserPermissionsLevel.WORKSPACE cb
      (some ws) pid? =
      match workspaceInfoBySlug store ws with
      | some info =>
        if info.role ≠ 0 ∧ allowedRoles.contains info.role then
          match cb with
          | some f => f ()
          | none => true
        else false
      | none => false := by
  simp only [allowPermissions, if_neg hws]
  cases h : workspaceInfoBySlug store ws <;> simp [h]

/-- Unfolding `allowPermissions` at PROJECT level with explicit non-empty
workspaceSlug and projectId: the router is ignored and the decision depends only
on the `projectPermissionsByWorkspaceSlugAndProjectId` lookup. -/
theorem allowPermissions_project_eq (store : UserPermissionStore)
    (router : RouterStore) (allowedRoles : List EUserPermissions)
    (cb : Option (Unit → Bool)) (ws pid : String)
    (hws : ws ≠ "") (hpid : pid ≠ "") :
    allowPermissions store router allowedRoles EUserPermissionsLevel.PROJECT cb
      (some ws) (some pid) =
      match projectPermissionsByWorkspaceSlugAndProjectId store ws pid with
      | some r =>
        if r ≠ 0 ∧ allowedRoles.contains r then
          match cb with
          | some f => f ()
          | none => true
        else false
      | none => false := by
  simp only [allowPermissions, if_neg hws, if_neg hpid]
  have hor : ¬ (ws = "" ∨ pid = "") := by
    intro h
    cases h with
    | inl h => exact hws h
    | inr h => exact hpid h
  simp only [if_neg hor]

/-! ### Claim theorems -/

/-- C2: every mutating store operation (fetchUserWorkspaceInfo, leaveWorkspace,
fetchUserProjectInfo, fetchUserProjectPermissions, joinProject, leaveProject) is
atomic with respect to failure: on a remote rejection all three cache maps are
exactly as they were before the call and the error is re-raised to the caller. -/
theorem actions_atomic_on_failure (store : UserPermissionStore) (ws pid : String)
    (e : RemoteErr) :
    fetchUserWorkspaceInfo store ws (Except.error e) = (Except.error e, store)
  ∧ leaveWorkspace store ws (Except.error e) = (Except.error e, store)
  ∧ fetchUserProjectInfo store ws pid (Except.error e) = (Except.error e, store)
  ∧ fetchUserProjectPermissions store ws (Except.error e) = (Except.error e, store)
  ∧ joinProject store ws pid (Except.error e) = (Except.error e, store)
  ∧ leaveProject store ws pid (Except.error e) = (Except.error e, store) :=
  ⟨rfl, rfl, rfl, rfl, rfl, rfl⟩

/-- C10: fetchUserWorkspaceInfo and fetchUserProjectInfo write to the cache only
on a truthy resolved response (a falsy response leaves all maps unchanged and is
returned without error), whereas fetchUserProjectPermissions writes its resolved
response unconditionally, so a falsy response erases the previously cached
ProjectRoleIndex slice for that workspace. -/
theorem fetch_truthiness_guards (store : UserPermissionStore) (ws pid : String) :
    fetchUserWorkspaceInfo store ws (Except.ok none) = (Except.ok none, store)
  ∧ fetchUserProjectInfo store ws pid (Except.ok none) = (Except.ok none, store)
  ∧ (fetchUserProjectPermissions store ws (Except.ok none)).1 = Except.ok none
  ∧ ((fetchUserProjectPermissions store ws (Except.ok none)).2).projectPermissions ws
      = none
  ∧ ∀ pid2,
      lookupProjectRoleRaw ((fetchUserProjectPermissions store ws (Except.ok none)).2)
        ws pid2 = none := by
  refine ⟨rfl, rfl, rfl, by simp [fetchUserProjectPermissions], ?_⟩
  intro pid2
  simp [fetchUserProjectPermissions, lookupProjectRoleRaw]

/-- C6: a successful fetchUserProjectInfo with membership record r upserts both
maps in one update: ProjectMembership[ws][pid] becomes r and
ProjectRoleIndex[ws][pid] becomes r.role, so the denormalized role projection
agrees with the membership record for that key. -/
theorem fetchUserProjectInfo_success_syncs (store : UserPermissionStore)
    (ws pid : String) (member : IProjectMember) :
    (fetchUserProjectInfo store ws pid (Except.ok (some member))).1
      = Except.ok (some member)
  ∧ lookupProjectMembership
      ((fetchUserProjectInfo store ws pid (Except.ok (some member))).2) ws pid
      = some member
  ∧ lookupProjectRoleRaw
      ((fetchUserProjectInfo store ws pid (Except.ok (some member))).2) ws pid
      = some member.role := by
  refine ⟨rfl, ?_, ?_⟩ <;>
    simp [fetchUserProjectInfo, lookupProjectMembership, lookupProjectRoleRaw]

/-- C3: a successful leaveWorkspace removes the workspaceSlug entries from all
three maps in one atomic update, so afterwards the workspace-info lookup returns
undefined and the project-role lookup returns undefined for every projectId. -/
theorem leaveWorkspace_success_clears (store : UserPermissionStore) (ws : String) :
    ((leaveWorkspace store ws (Except.ok ())).2).workspaceUserInfo ws = none
  ∧ ((leaveWorkspace store ws (Except.ok ())).2).projectUserInfo ws = none
  ∧ ((leaveWorkspace store ws (Except.ok ())).2).projectPermissions ws = none
  ∧ workspaceInfoBySlug ((leaveWorkspace store ws (Except.ok ())).2) ws = none
  ∧ ∀ pid,
      projectPermissionsByWorkspaceSlugAndProjectId
        ((leaveWorkspace store ws (Except.ok ())).2) ws pid = none := by
  refine ⟨by simp [leaveWorkspace], by simp [leaveWorkspace],
    by simp [leaveWorkspace], ?_, ?_⟩
  · by_cases h : ws = "" <;> simp [leaveWorkspace, workspaceInfoBySlug, h]
  · intro pid
    by_cases h : ws = "" <;> by_cases h2 : pid = "" <;>
      simp [leaveWorkspace, projectPermissionsByWorkspaceSlugAndProjectId,
        jsRoleOrUndefined, h, h2]

/-- C1: allowPermissions with an explicit workspaceSlug (and projectId at
PROJECT level) looks up the caller's role at the requested level (WORKSPACE from
WorkspaceMembership.role, PROJECT from ProjectRoleIndex); it returns false when
no role is known for that key; it returns false when the role is known but not a
member of allowedRoles; and when the (truthy enum) role is in allowedRoles it
returns the result of onPermissionAllowed () if that callback is supplied, else
true. -/
theorem checkPermission_explicit_spec
    (store : UserPermissionStore) (router : RouterStore)
    (roles : List EUserPermissions) (cb : Option (Unit → Bool)) (ws pid : String)
    (hws : ws ≠ "") (hpid : pid ≠ "") :
    (workspaceInfoBySlug store ws = none →
       allowPermissions store router roles EUserPermissionsLevel.WORKSPACE cb
         (some ws) (some pid) = false)
  ∧ (∀ info, workspaceInfoBySlug store ws = some info →
       (info.role ∉ roles →
          allowPermissions store router roles EUserPermissionsLevel.WORKSPACE cb
            (some ws) (some pid) = false)
     ∧ (info.role ∈ roles → 0 < info.role →
          (cb = none →
             allowPermissions store router roles EUserPermissionsLevel.WORKSPACE cb
               (some ws) (some pid) = true)
        ∧ (∀ f, cb = some f →
             allowPermissions store router roles EUserPermissionsLevel.WORKSPACE cb
               (some ws) (some pid) = f ())))
  ∧ (projectPermissionsByWorkspaceSlugAndProjectId store ws pid = none →
       allowPermissions store router roles EUserPermissionsLevel.PROJECT cb
         (some ws) (some pid) = false)
  ∧ (∀ r, projectPermissionsByWorkspaceSlugAndProjectId store ws pid = some r →
       (r ∉ roles →
          allowPermissions store router roles EUserPermissionsLevel.PROJECT cb
            (some ws) (some pid) = false)
     ∧ (r ∈ roles →
          (cb = none →
             allowPermissions store router roles EUserPermissionsLevel.PROJECT cb
               (some ws) (some pid) = true)
        ∧ (∀ f, cb = some f →
             allowPermissions store router roles EUserPermissionsLevel.PROJECT cb
               (some ws) (some pid) = f ()))) := by
  have hw := allowPermissions_workspace_eq store router roles cb ws (some pid) hws
  have hp := allowPermissions_project_eq store router roles cb ws pid hws hpid
  refine ⟨?_, ?_, ?_, ?_⟩
  · intro h
    rw [hw, h]
  · intro info h
    refine ⟨?_, ?_⟩
    · intro hnot
      rw [hw, h]
      simp [hnot]
    · intro hmem hpos
      refine ⟨?_, ?_⟩
      · intro hcb
        subst hcb
        rw [hw, h]
        simp [hmem, Nat.pos_iff_ne_zero.mp hpos]
      · intro f hcb
        subst hcb
        rw [hw, h]
        simp [hmem, Nat.pos_iff_ne_zero.mp hpos]
  · intro h
    rw [hp, h]
  · intro r h
    have hr0 : r ≠ 0 := projectLookup_ne_zero h
    refine ⟨?_, ?_⟩
    · intro hnot
      rw [hp, h]
      simp [hnot]
    · intro hmem
      refine ⟨?_, ?_⟩
      · intro hcb
        subst hcb
        rw [hp, h]
        simp [hmem, hr0]
      · intro f hcb
        subst hcb
        rw [hp, h]
        simp [hmem, hr0]

/-- Witness for C1: on the sample store the MEMBER role of ws1 qualifies against
the role list containing MEMBER and ADMIN, and with a supplied callback
returning false the check returns the callback's value, false. -/
theorem checkPermission_explicit_spec_witness :
    allowPermissions sampleStore emptyRouter [15, 20]
      EUserPermissionsLevel.WORKSPACE (some fun _ => false) (some "ws1") (some "p1")
      = false :=
  ((checkPermission_explicit_spec sampleStore emptyRouter [15, 20]
      (some fun _ => false) "ws1" "p1" (by decide) (by decide)).2.1
    sampleMember (by decide)).2 (by decide) (by decide) |>.2 (fun _ => false) rfl

/-- C5: allowPermissions at PROJECT level with explicit identifiers and no
callback returns false for every (workspaceSlug, projectId) pair with no entry
in ProjectRoleIndex, for every allowedRoles list (and, being a total function,
never throws). -/
theorem checkPermission_project_unfetched_false
    (store : UserPermissionStore) (router : RouterStore)
    (roles : List EUserPermissions) (ws pid : String)
    (hws : ws ≠ "") (hpid : pid ≠ "")
    (hno : lookupProjectRoleRaw store ws pid = none) :
    allowPermissions store router roles EUserPermissionsLevel.PROJECT none
      (some ws) (some pid) = false := by
  rw [allowPermissions_project_eq store router roles none ws pid hws hpid]
  unfold lookupProjectRoleRaw at hno
  unfold projectPermissionsByWorkspaceSlugAndProjectId
  rw [hno]
  simp [jsRoleOrUndefined]

/-- Witness for C5: the empty store has no ProjectRoleIndex entry for
(ws1, p1), and the PROJECT-level check there returns false. -/
theorem checkPermission_project_unfetched_false_witness :
    allowPermissions emptyStore emptyRouter [5, 15, 20]
      EUserPermissionsLevel.PROJECT none (some "ws1") (some "p1") = false :=
  checkPermission_project_unfetched_false emptyStore emptyRouter [5, 15, 20]
    "ws1" "p1" (by decide) (by decide) (by decide)

/-- C9: a known role whose value is the falsy 0 is treated exactly like an
unknown role: allowPermissions returns false even when 0 is a member of
allowedRoles and onPermissionAllowed is supplied, at PROJECT level (a stored
role 0 collapses to undefined in the lookup) as well as at WORKSPACE level
(the truthiness test on the looked-up role fails). -/
theorem checkPermission_falsy_role_denied
    (store : UserPermissionStore) (router : RouterStore)
    (roles : List EUserPermissions) (f : Unit → Bool) (ws pid : String)
    (hws : ws ≠ "") (hpid : pid ≠ "") :
    (lookupProjectRoleRaw store ws pid = some 0 →
       allowPermissions store router roles EUserPermissionsLevel.PROJECT (some f)
         (some ws) (some pid) = false)
  ∧ (∀ info, workspaceInfoBySlug store ws = some info → info.role = 0 →
       allowPermissions store router roles EUserPermissionsLevel.WORKSPACE (some f)
         (some ws) (some pid) = false) := by
  refine ⟨?_, ?_⟩
  · intro h
    rw [allowPermissions_project_eq store router roles (some f) ws pid hws hpid]
    unfold lookupProjectRoleRaw at h
    unfold projectPermissionsByWorkspaceSlugAndProjectId
    rw [h]
    simp [jsRoleOrUndefined]
  · intro info h h0
    rw [allowPermissions_workspace_eq store router roles (some f) ws (some pid) hws, h]
    simp [h0]

/-- Witness for C9: the sample store records the falsy role 0 for (ws1, p0);
with allowedRoles = [0] and a callback returning true, the PROJECT-level check
still returns false. -/
theorem checkPermission_falsy_role_denied_witness :
    allowPermissions sampleStore emptyRouter [0]
      EUserPermissionsLevel.PROJECT (some fun _ => true) (some "ws1") (some "p0")
      = false :=
  (checkPermission_falsy_role_denied sampleStore emptyRouter [0] (fun _ => true)
    "ws1" "p0" (by decide) (by decide)).1 (by decide)

/-- C4: a successful fetchUserProjectPermissions with mapping m makes the entire
ProjectRoleIndex slice for that workspaceSlug exactly m (bulk overwrite, not
merge): for every projectId carrying a valid enum role in m, the subsequent
lookup returns m projectId when present and undefined otherwise, regardless of
what was cached before. -/
theorem fetchUserProjectPermissions_overwrites
    (store : UserPermissionStore) (ws : String) (m : IUserProjectsRole)
    (pid : String) (hws : ws ≠ "") (hpid : pid ≠ "")
    (hvalid : ∀ r, m pid = some r → 0 < r) :
    projectPermissionsByWorkspaceSlugAndProjectId
      ((fetchUserProjectPermissions store ws (Except.ok (some m))).2) ws pid
      = m pid := by
  have hor : ¬ (ws = "" ∨ pid = "") := by
    intro h
    cases h with
    | inl h => exact hws h
    | inr h => exact hpid h
  unfold projectPermissionsByWorkspaceSlugAndProjectId fetchUserProjectPermissions
  simp only [if_neg hor, if_pos rfl]
  cases h : m pid with
  | none => simp [jsRoleOrUndefined, h]
  | some r =>
    have hr : r ≠ 0 := Nat.pos_iff_ne_zero.mp (hvalid r h)
    simp [jsRoleOrUndefined, h, hr]

/-- Witness for C4: after a bulk fetch for ws1 resolving to sampleBulkRoles, the
previously cached p3 entry of the sample store is no longer retrievable — the
lookup agrees with sampleBulkRoles, which has no p3 entry. -/
theorem fetchUserProjectPermissions_overwrites_witness :
    projectPermissionsByWorkspaceSlugAndProjectId
      ((fetchUserProjectPermissions sampleStore "ws1"
        (Except.ok (some sampleBulkRoles))).2) "ws1" "p3"
      = sampleBulkRoles "p3" :=
  fetchUserProjectPermissions_overwrites sampleStore "ws1" sampleBulkRoles "p3"
    (by decide) (by decide)
    (by
      intro r hr
      simp [sampleBulkRoles] at hr)

/-- C7: a successful leaveProject removes exactly the single ProjectRoleIndex
entry for (workspaceSlug, projectId): workspaceUserInfo and projectUserInfo
(including the ProjectMembership entry for that same pair) are untouched, and
every other ProjectRoleIndex entry — other workspaces, other projects of the
same workspace — is unchanged. -/
theorem leaveProject_success_frame (store : UserPermissionStore) (ws pid : String) :
    ((leaveProject store ws pid (Except.ok ())).2).workspaceUserInfo
      = store.workspaceUserInfo
  ∧ ((leaveProject store ws pid (Except.ok ())).2).projectUserInfo
      = store.projectUserInfo
  ∧ lookupProjectRoleRaw ((leaveProject store ws pid (Except.ok ())).2) ws pid
      = none
  ∧ (∀ ws2, ws2 ≠ ws →
       ((leaveProject store ws pid (Except.ok ())).2).projectPermissions ws2
         = store.projectPermissions ws2)
  ∧ (∀ pid2, pid2 ≠ pid →
       lookupProjectRoleRaw ((leaveProject store ws pid (Except.ok ())).2) ws pid2
         = lookupProjectRoleRaw store ws pid2) := by
  refine ⟨?_, ?_, ?_, ?_, ?_⟩
  · cases h : store.projectPermissions ws <;> simp [leaveProject, h]
  · cases h : store.projectPermissions ws <;> simp [leaveProject, h]
  · cases h : store.projectPermissions ws <;>
      simp [leaveProject, lookupProjectRoleRaw, h]
  · intro ws2 hne
    cases h : store.projectPermissions ws <;> simp [leaveProject, h, hne]
  · intro pid2 hne
    cases h : store.projectPermissions ws <;>
      simp [leaveProject, lookupProjectRoleRaw, h, hne]

/-- Witness for C7: after leaving (ws1, p0), the unrelated ProjectRoleIndex
entry (ws1, p3) of the sample store reads the same as before. -/
theorem leaveProject_success_frame_witness :
    lookupProjectRoleRaw ((leaveProject sampleStore "ws1" "p0" (Except.ok ())).2)
      "ws1" "p3" = lookupProjectRoleRaw sampleStore "ws1" "p3" :=
  (leaveProject_success_frame sampleStore "ws1" "p0").2.2.2.2 "p3" (by decide)

/-- C8: for every workspaceSlug whose workspaceUserInfo entry is unpopulated the
workspaceInfoBySlug lookup returns undefined; and after a successful
fetchUserWorkspaceInfo whose remote response is a record with role ADMIN, the
lookup returns that record, with role equal to ADMIN. -/
theorem workspaceInfo_unfetched_and_fetched (store : UserPermissionStore)
    (ws : String) (info : IWorkspaceMemberMe) :
    (store.workspaceUserInfo ws = none → workspaceInfoBySlug store ws = none)
  ∧ (ws ≠ "" → info.role = EUserPermissions.ADMIN →
       workspaceInfoBySlug
         ((fetchUserWorkspaceInfo store ws (Except.ok (some info))).2) ws
         = some info
     ∧ (workspaceInfoBySlug
          ((fetchUserWorkspaceInfo store ws (Except.ok (some info))).2) ws).map
         IWorkspaceMemberMe.role = some EUserPermissions.ADMIN) := by
  refine ⟨?_, ?_⟩
  · intro h
    by_cases hws : ws = "" <;> simp [workspaceInfoBySlug, hws, h]
  · intro hws hrole
    have hlook : workspaceInfoBySlug
        ((fetchUserWorkspaceInfo store ws (Except.ok (some info))).2) ws
        = some info := by
      simp [fetchUserWorkspaceInfo, workspaceInfoBySlug, hws]
    refine ⟨hlook, ?_⟩
    rw [hlook]
    simp [hrole]

/-- Witness for C8: fetching ws1 on the empty store with an ADMIN response makes
the lookup return that ADMIN record. -/
theorem workspaceInfo_unfetched_and_fetched_witness :
    workspaceInfoBySlug
      ((fetchUserWorkspaceInfo emptyStore "ws1" (Except.ok (some adminMember))).2)
      "ws1" = some adminMember :=
  ((workspaceInfo_unfetched_and_fetched emptyStore "ws1" adminMember).2
    (by decide) (by decide)).1

end Plane
